import Mathlib

/-!
Shallow embedding of the cv-cue-wrapper client library
(`src/cv_cue_wrapper/cv_cue_client.py`,
`src/cv_cue_wrapper/resources/filters.py`,
`src/cv_cue_wrapper/resources/managed_devices.py`).

Python values that flow into query parameters and JSON bodies are modelled
by the inductive `JValue`; Python dicts by ordered association lists with
the Python dict-update semantics (`dictSet`, `dictUpdate`); exceptions by
`Except` with labelled error constructors; the HTTP transport and the
pickle parser by explicit oracle parameters.
-/

set_option autoImplicit false
set_option maxRecDepth 100000

namespace CvCue

/-- JSON-like values: the universe of Python values that the wrapper puts in
query parameters, filter values and request bodies. -/
inductive JValue where
  | null
  | bool (b : Bool)
  | int (n : Int)
  | str (s : String)
  | arr (xs : List JValue)
  | obj (kvs : List (String × JValue))
deriving Repr

/-- Python truthiness for the modelled values (`bool(v)`). -/
def pyTruthy : JValue → Bool
  | .null => false
  | .bool b => b
  | .int n => n != 0
  | .str s => s ≠ ""
  | .arr xs => ¬xs.isEmpty
  | .obj kvs => ¬kvs.isEmpty

/-- Model of `not kwargs.get(json-key)`: an absent value is falsy, a present one is
tested with Python truthiness. -/
def pyTruthyOpt : Option JValue → Bool
  | none => false
  | some v => pyTruthy v

/-- Look a key up in a Python dict modelled as an association list
(`d.get(k)` / `d[k]`). -/
def dictGet (d : List (String × JValue)) (k : String) : Option JValue :=
  (d.find? (fun kv => kv.1 = k)).map (fun kv => kv.2)

/-- Assignment `d[k] = v` on a Python dict: overwrite in place when the key exists,
append otherwise (Python dicts preserve insertion order). -/
def dictSet (d : List (String × JValue)) (k : String) (v : JValue) : List (String × JValue) :=
  if d.any (fun kv => kv.1 = k) then
    d.map (fun kv => if kv.1 = k then (k, v) else kv)
  else
    d ++ [(k, v)]

/-- Update `d.update(u)` on Python dicts. -/
def dictUpdate (d u : List (String × JValue)) : List (String × JValue) :=
  u.foldl (fun acc kv => dictSet acc kv.1 kv.2) d

/-- Escape one character the way Python `json.dumps` does for the common
cases (quote, backslash, the usual control characters). -/
def jsonEscapeChar (c : Char) : String :=
  if c = '"' then "\\\""
  else if c = '\\' then "\\\\"
  else if c = '\n' then "\\n"
  else if c = '\t' then "\\t"
  else if c = '\r' then "\\r"
  else String.singleton c

/-- Rendering of a string by Python `json.dumps`. -/
def jsonQuote (s : String) : String :=
  "\"" ++ String.join (s.toList.map jsonEscapeChar) ++ "\""

mutual

/-- Model of `json.dumps` with the default separators, as used by the `Filter` string conversion. -/
def jsonDumps : JValue → String
  | .null => "null"
  | .bool true => "true"
  | .bool false => "false"
  | .int n => toString n
  | .str s => jsonQuote s
  | .arr xs => "[" ++ jsonDumpsList xs ++ "]"
  | .obj kvs => "\x7b" ++ jsonDumpsObj kvs ++ "\x7d"

/-- Comma-separated rendering of the items of a JSON array. -/
def jsonDumpsList : List JValue → String
  | [] => ""
  | [x] => jsonDumps x
  | x :: xs => jsonDumps x ++ ", " ++ jsonDumpsList xs

/-- Comma-separated rendering of the entries of a JSON object. -/
def jsonDumpsObj : List (String × JValue) → String
  | [] => ""
  | [kv] => jsonQuote kv.1 ++ ": " ++ jsonDumps kv.2
  | kv :: kvs => jsonQuote kv.1 ++ ": " ++ jsonDumps kv.2 ++ ", " ++ jsonDumpsObj kvs

end

/-- Exceptions raised by the embedded code, labelled by their Python class
and role (`ValueError` for the invalid-operator and missing-configuration
checks, `AttributeError` for calling a method on `None`). -/
inductive PyError where
  | invalidOperator (op : String)
  | invalidLogicalOperator (op : String)
  | configurationError (field : String)
  | attributeError
deriving Repr, DecidableEq

/-- Embedding of `Filter.OPERATOR_MAP` from `resources/filters.py`: friendly operator
names mapped to the actual API operator strings. -/
def OPERATOR_MAP : List (String × String) :=
  [("equals", "="),
   ("lessThan", "<"),
   ("greaterThan", ">"),
   ("lessThanOrEquals", "<="),
   ("greaterThanOrEquals", ">="),
   ("notEquals", "!="),
   ("contains", "contains"),
   ("notContains", "notcontains")]

/-- Embedding of `Filter.VALID_OPERATORS = list(OPERATOR_MAP.keys())`. -/
def VALID_OPERATORS : List String :=
  OPERATOR_MAP.map (fun kv => kv.1)

/-- A constructed `Filter` object: property, (friendly) operator, and the
value list after normalization. -/
structure Filter where
  property : String
  operator : String
  value : List JValue
deriving Repr

/-- Embedding of the `Filter` constructor: rejects an operator outside `VALID_OPERATORS`
(`ValueError`), and normalizes the value with
`value if isinstance(value, list) else [value]`. -/
def Filter.create (property operator : String) (value : JValue) : Except PyError Filter :=
  if operator ∈ VALID_OPERATORS then
    .ok ⟨property, operator,
      match value with
      | .arr xs => xs
      | v => [v]⟩
  else
    .error (.invalidOperator operator)

/-- Embedding of `Filter.to_dict`: the API operator is
`OPERATOR_MAP.get(self.operator, self.operator)`. -/
def Filter.to_dict (f : Filter) : JValue :=
  .obj [("property", .str f.property),
        ("operator", .str (((OPERATOR_MAP.find? (fun kv => kv.1 = f.operator)).map
          (fun kv => kv.2)).getD f.operator)),
        ("value", .arr f.value)]

/-- Embedding of the `Filter` string conversion: `json.dumps(self.to_dict())`. -/
def Filter.toStr (f : Filter) : String :=
  jsonDumps f.to_dict

/-- A `FilterBuilder` object: the AND/OR logical operator fixed at
construction and the ordered list of filters. -/
structure FilterBuilder where
  operator : String
  filters : List Filter
deriving Repr

/-- Embedding of the `FilterBuilder` constructor: only "AND" and "OR" are accepted. -/
def FilterBuilder.create (operator : String) : Except PyError FilterBuilder :=
  if operator = "AND" ∨ operator = "OR" then
    .ok ⟨operator, []⟩
  else
    .error (.invalidLogicalOperator operator)

/-- Embedding of `FilterBuilder.add`: appends `Filter(property, operator, value)` and
returns the builder (the `Filter` constructor may raise). -/
def FilterBuilder.add (fb : FilterBuilder) (property operator : String) (value : JValue) :
    Except PyError FilterBuilder :=
  match Filter.create property operator value with
  | .ok f => .ok ⟨fb.operator, fb.filters ++ [f]⟩
  | .error e => .error e

/-- Embedding of `FilterBuilder.to_params`: empty dict on zero filters, otherwise the
two keys `operator` and `filter` (the filters serialized with `str`). -/
def FilterBuilder.to_params (fb : FilterBuilder) : List (String × JValue) :=
  if fb.filters.isEmpty then []
  else
    [("operator", .str fb.operator),
     ("filter", .arr (fb.filters.map (fun f => .str f.toStr)))]

/-- The keyword arguments `CVCueClient.request` receives (`params`, `json`,
`headers`); an absent key is `none`. -/
structure Kwargs where
  params : Option (List (String × JValue))
  json : Option JValue
  headers : Option (List (String × String))
deriving Repr

/-- The HTTP request handed to `self.session.request` in
`CVCueClient.request`: method, path (appended to the base URL), and the
keyword arguments after the header fix-up. -/
structure IssuedRequest where
  method : String
  path : String
  params : Option (List (String × JValue))
  json : Option JValue
  headers : Option (List (String × String))
deriving Repr

/-- The header fix-up in `CVCueClient.request`: a `Content-Type:
application/json` header is injected only when the caller passed no
`headers` kwarg and the `json` kwarg is falsy. -/
def request_issued (method path : String) (kw : Kwargs) : IssuedRequest :=
  if kw.headers.isNone ∧ pyTruthyOpt kw.json = false then
    ⟨method, path, kw.params, kw.json, some [("Content-Type", "application/json")]⟩
  else
    ⟨method, path, kw.params, kw.json, kw.headers⟩

/-- The value of one header on an issued request (`none` when the request
carries no such header). -/
def IssuedRequest.header (r : IssuedRequest) (name : String) : Option String :=
  ((r.headers.getD []).find? (fun kv => kv.1 = name)).map (fun kv => kv.2)

/-- What the transport returns for one issued request: the final HTTP
status together with the JSON parse of the body (`none` when `response.json()`
would fail). -/
structure HttpResponse where
  status : Nat
  jsonBody : Option JValue
deriving Repr

/-- A network oracle: the behavior of `self.session.request` on one
issued request — either a `requests` transport exception or a response. -/
def Net : Type :=
  IssuedRequest → Except Unit HttpResponse

/-- The errors `CVCueClient.request` can raise: a transport exception from
`requests`, the `HTTPError` from `response.raise_for_status()` (which fires
exactly when `400 <= status < 600`), or a JSON decode failure from
`response.json()`. -/
inductive ReqError where
  | transport
  | httpStatus (status : Nat)
  | jsonDecode
deriving Repr, DecidableEq

/-- Embedding of `CVCueClient.request`: build the request (header fix-up), send it,
`raise_for_status`, and parse the body as JSON. -/
def request (net : Net) (method path : String) (kw : Kwargs) : Except ReqError JValue :=
  match net (request_issued method path kw) with
  | .error _ => .error .transport
  | .ok r =>
    if 400 ≤ r.status ∧ r.status < 600 then
      .error (.httpStatus r.status)
    else
      match r.jsonBody with
      | some j => .ok j
      | none => .error .jsonDecode

/-- Predicate `200 <= status < 300`: whether an HTTP status is a 2xx success, the
classification the wording of the specification refers to. -/
def is2xx (status : Nat) : Bool :=
  200 ≤ status ∧ status < 300

/-- The credential body built in `CVCueClient.login`. -/
def login_body (key_id key_value client_id : String) : JValue :=
  .obj [("type", .str "apiKeyCredentials"),
        ("keyId", .str key_id),
        ("keyValue", .str key_value),
        ("clientIdentifier", .str client_id),
        ("timeout", .int 300)]

/-- The request `CVCueClient.login` issues: the legacy `_make_request` call
becomes `request` with method POST, path `/session` and the credential body. -/
def login_issued (key_id key_value client_id : String) : IssuedRequest :=
  request_issued "POST" "/session" ⟨none, some (login_body key_id key_value client_id), none⟩

/-- Embedding of `CVCueClient.login`: POST the credentials, then `_save_session()` only
when the request returned normally. The boolean records whether the
session file was written. -/
def login (net : Net) (key_id key_value client_id : String) :
    Except ReqError JValue × Bool :=
  match request net "POST" "/session" ⟨none, some (login_body key_id key_value client_id), none⟩ with
  | .error e => (.error e, false)
  | .ok j => (.ok j, true)

/-- Model of Python `a or b` on optional strings: the left side wins unless it is
falsy (`None` or the empty string). -/
def pyOrStr : Option String → Option String → Option String
  | some s, b => if s = "" then b else some s
  | none, b => b

/-- Model of Python falsiness of an optional string (`not self.key_id`). -/
def pyFalsyStr : Option String → Bool
  | none => true
  | some s => s = ""

/-- Model of `s.rstrip` with the slash character. -/
def rstripSlash (s : String) : String :=
  String.mk ((s.toList.reverse.dropWhile (fun c => c = '/')).reverse)

/-- The four environment variables `CVCueClient.__init__` consults
(`CV_CUE_KEY_ID`, `CV_CUE_KEY_VALUE`, `CV_CUE_CLIENT_ID`,
`CV_CUE_BASE_URL`); `none` models an unset variable. -/
structure Env where
  key_id : Option String
  key_value : Option String
  client_id : Option String
  base_url : Option String
deriving Repr

/-- The configuration a successfully constructed client holds. -/
structure ClientConfig where
  key_id : String
  key_value : String
  client_id : String
  base_url : String
deriving Repr, DecidableEq

/-- What `CVCueClient.__init__` can raise while resolving configuration:
the three explicit `ValueError`s, or the `AttributeError` from
`self.base_url.rstrip` when `base_url` resolved to `None`. -/
inductive InitError where
  | configurationError (field : String)
  | attributeError
deriving Repr, DecidableEq

/-- Embedding of `CVCueClient.__init__` up to configuration resolution: each field is
`explicit or env`, the first three are validated with `ValueError`, and
the base URL is only ever touched by `rstrip`. -/
def client_init (key_id key_value client_id base_url : Option String) (env : Env) :
    Except InitError ClientConfig :=
  let kid := pyOrStr key_id env.key_id
  let kv := pyOrStr key_value env.key_value
  let cid := pyOrStr client_id env.client_id
  let burl := pyOrStr base_url env.base_url
  if pyFalsyStr kid then .error (.configurationError "key_id")
  else if pyFalsyStr kv then .error (.configurationError "key_value")
  else if pyFalsyStr cid then .error (.configurationError "client_id")
  else
    match burl with
    | none => .error .attributeError
    | some u => .ok ⟨kid.getD "", kv.getD "", cid.getD "", rstripSlash u⟩

/-- Outcome of the single GET probe `is_session_active` may issue: a
response with some status, or a `requests` transport exception. -/
inductive ProbeResult where
  | resp (status : Nat)
  | transportExc
deriving Repr, DecidableEq

/-- Whether the cookie jar holds a `JSESSIONID` cookie
(the `JSESSIONID` membership test on `self.session.cookies`). -/
def hasJSessionId (cookies : List (String × String)) : Bool :=
  cookies.any (fun c => c.1 = "JSESSIONID")

/-- Embedding of `CVCueClient.is_session_active`: return `false` with no request when
the `JSESSIONID` cookie is absent; otherwise issue one GET to
`base_url + "/session"` and compare the status with 200, mapping a
transport exception to `false`. The second component lists the URLs of
the probes issued. -/
def is_session_active (base_url : String) (cookies : List (String × String))
    (probe : ProbeResult) : Bool × List String :=
  if ¬hasJSessionId cookies then
    (false, [])
  else
    match probe with
    | .resp status => (if status = 200 then true else false, [base_url ++ "/session"])
    | .transportExc => (false, [base_url ++ "/session"])

/-- Embedding of `CVCueClient._load_session` at construction time (the cookie
jar of a fresh session is empty, so the update from the parsed file is the
whole resulting cookie set). The stored blob is a byte list; `pickle.load` is the
oracle `parse`, failing with `none`. Returns the resulting cookie set and
the contents of the session file afterwards (`none` = no file). -/
def load_session (parse : List Nat → Option (List (String × String)))
    (file : Option (List Nat)) :
    List (String × String) × Option (List Nat) :=
  match file with
  | none => ([], none)
  | some bytes =>
    match parse bytes with
    | some cookies => (cookies, some bytes)
    | none => ([], none)

/-- Form of the `filters` argument of `list_aps`: `None`, a `FilterBuilder`, or a
plain list of `Filter` objects (the `isinstance` dispatch). -/
inductive FiltersArg where
  | none
  | builder (fb : FilterBuilder)
  | list (fs : List Filter)
deriving Repr

/-- The query-parameter dict `ManagedDevicesResource.list_aps` builds:
the eight base parameters, the optional `locationid`, the filter
parameters chosen by the form of `filters`, and finally
`params.update(kwargs)`. -/
def list_aps_params (startindex pagesize : Nat) (totalcountrequired : Bool)
    (locationid : Option Int) (sortby : String)
    (ascending fetchradios populatemeshinfo populatewiredinterfaces : Bool)
    (filters : FiltersArg) (filter_operator : String)
    (kwargs : List (String × JValue)) : List (String × JValue) :=
  let params : List (String × JValue) :=
    [("startindex", .int startindex),
     ("pagesize", .int pagesize),
     ("totalcountrequired", .bool totalcountrequired),
     ("sortby", .str sortby),
     ("ascending", .bool ascending),
     ("fetchradios", .bool fetchradios),
     ("populatemeshinfo", .bool populatemeshinfo),
     ("populatewiredinterfaces", .bool populatewiredinterfaces)]
  let params :=
    match locationid with
    | some l => dictSet params "locationid" (.int l)
    | none => params
  let params :=
    match filters with
    | .none => params
    | .builder fb => dictUpdate params fb.to_params
    | .list fs =>
      dictSet (dictSet params "filter" (.arr (fs.map (fun f => .str f.toStr))))
        "operator" (.str filter_operator)
  dictUpdate params kwargs

/-- The request `list_aps` issues: GET `/manageddevices/aps` with the
built params and the required `Version: 19` header. -/
def list_aps (startindex pagesize : Nat) (totalcountrequired : Bool)
    (locationid : Option Int) (sortby : String)
    (ascending fetchradios populatemeshinfo populatewiredinterfaces : Bool)
    (filters : FiltersArg) (filter_operator : String)
    (kwargs : List (String × JValue)) : IssuedRequest :=
  request_issued "GET" "/manageddevices/aps"
    ⟨some (list_aps_params startindex pagesize totalcountrequired locationid sortby
        ascending fetchradios populatemeshinfo populatewiredinterfaces
        filters filter_operator kwargs),
      none, some [("Version", "19")]⟩

/-- The pagination loop of `ManagedDevicesResource.get_all_aps`. The
server oracle maps a `startindex` to the `managedDevices` field of the
page response (`none` when the key is absent; `response.get` then yields
`[]`). `fuel` bounds the iteration count so the (source-side unbounded)
loop is a total function; `none` means the fuel ran out before the loop
stopped. Accumulates the devices fetched so far and the list of
`startindex` values requested, in order. -/
def get_all_aps_go (server : Nat → Option (List JValue)) (pagesize : Nat) :
    Nat → Nat → List JValue → List Nat → Option (List JValue × List Nat)
  | 0, _, _, _ => none
  | fuel + 1, startindex, acc, reqs =>
    let devices := (server startindex).getD []
    let reqs := reqs ++ [startindex]
    if devices.isEmpty then some (acc, reqs)
    else
      let acc := acc ++ devices
      if devices.length < pagesize then some (acc, reqs)
      else get_all_aps_go server pagesize fuel (startindex + pagesize) acc reqs

/-- Embedding of `ManagedDevicesResource.get_all_aps`: run the loop from
`startindex = 0` with empty accumulators. -/
def get_all_aps (server : Nat → Option (List JValue)) (pagesize fuel : Nat) :
    Option (List JValue × List Nat) :=
  get_all_aps_go server pagesize fuel 0 [] []

/-- Field access on a JSON object value (`none` on a non-object or a
missing key). -/
def JValue.get (v : JValue) (k : String) : Option JValue :=
  match v with
  | .obj kvs => dictGet kvs k
  | _ => none

/-- A concrete filter object, for witnesses: `Filter("name", "contains",
["Arista"])`. -/
def demoFilter : Filter :=
  ⟨"name", "contains", [.str "Arista"]⟩

/-- A concrete AND builder holding one filter, for counterexamples. -/
def demoBuilder : FilterBuilder :=
  ⟨"AND", [demoFilter]⟩

/-- The request `list_aps` hands to `CVCueClient.request` for a minimal
call: explicit `Version: 19` header, query params present, no body. -/
def demoVersionRequest : IssuedRequest :=
  request_issued "GET" "/manageddevices/aps"
    ⟨some [("startindex", JValue.int 0)], none, some [("Version", "19")]⟩

/-- A transport oracle whose every response is `200` with an empty JSON
object body. -/
def netOk200 : Net :=
  fun _ => .ok ⟨200, some (.obj [])⟩

/-- A transport oracle whose every response is status `300` (a non-2xx
status that `raise_for_status` does not treat as an error) with an empty
JSON object body. -/
def net300 : Net :=
  fun _ => .ok ⟨300, some (.obj [])⟩

/-- A transport oracle that always fails with a transport exception. -/
def netDown : Net :=
  fun _ => .error ()

/-- One server page of `len` consecutive integer items starting at
`start`. -/
def pageOf (start len : Nat) : List JValue :=
  (List.range len).map (fun i => .int (start + i))

/-- A server holding 250 devices served in pages of sizes 100, 100, 50 at
start indexes 0, 100, 200 (and empty pages elsewhere). -/
def server3 : Nat → Option (List JValue) :=
  fun s =>
    if s = 0 then some (pageOf 0 100)
    else if s = 100 then some (pageOf 100 100)
    else if s = 200 then some (pageOf 200 50)
    else some []

/-! Association-list (Python dict) lemmas shared by the claim proofs. -/

theorem dictGet_cons_pos (kv : String × JValue) (d : List (String × JValue)) (k : String)
    (h : kv.1 = k) : dictGet (kv :: d) k = some kv.2 := by
  simp [dictGet, List.find?_cons_of_pos, h]

theorem dictGet_cons_neg (kv : String × JValue) (d : List (String × JValue)) (k : String)
    (h : kv.1 ≠ k) : dictGet (kv :: d) k = dictGet d k := by
  simp only [dictGet]
  rw [List.find?_cons_of_neg]
  simp [h]

theorem dictGet_map_replace (d : List (String × JValue)) (k' k : String) (v : JValue)
    (h : k' ≠ k) :
    dictGet (d.map (fun kv => if kv.1 = k' then (k', v) else kv)) k = dictGet d k := by
  induction d with
  | nil => rfl
  | cons kv d ih =>
    by_cases hk' : kv.1 = k'
    · have hkk : kv.1 ≠ k := by rw [hk']; exact h
      simp only [List.map_cons, if_pos hk']
      rw [dictGet_cons_neg _ _ _ h, dictGet_cons_neg _ _ _ hkk]
      exact ih
    · simp only [List.map_cons, if_neg hk']
      by_cases hkv : kv.1 = k
      · rw [dictGet_cons_pos _ _ _ hkv, dictGet_cons_pos _ _ _ hkv]
      · rw [dictGet_cons_neg _ _ _ hkv, dictGet_cons_neg _ _ _ hkv]
        exact ih

theorem dictGet_append_singleton_ne (d : List (String × JValue)) (k' k : String) (v : JValue)
    (h : k' ≠ k) : dictGet (d ++ [(k', v)]) k = dictGet d k := by
  induction d with
  | nil =>
    simp only [List.nil_append]
    rw [dictGet_cons_neg _ _ _ h]
  | cons kv d ih =>
    by_cases hkv : kv.1 = k
    · rw [List.cons_append, dictGet_cons_pos _ _ _ hkv, dictGet_cons_pos _ _ _ hkv]
    · rw [List.cons_append, dictGet_cons_neg _ _ _ hkv, dictGet_cons_neg _ _ _ hkv]
      exact ih

theorem dictGet_dictSet_self (d : List (String × JValue)) (k : String) (v : JValue) :
    dictGet (dictSet d k v) k = some v := by
  unfold dictSet
  by_cases h : d.any (fun kv => kv.1 = k)
  · rw [if_pos h]
    induction d with
    | nil => simp at h
    | cons kv d ih =>
      by_cases hk : kv.1 = k
      · simp only [List.map_cons, if_pos hk]
        rw [dictGet_cons_pos _ _ _ rfl]
      · simp only [List.any_cons, hk, decide_eq_true_eq, false_or] at h
        simp only [List.map_cons, if_neg hk]
        rw [dictGet_cons_neg _ _ _ hk]
        exact ih h
  · rw [if_neg h]
    induction d with
    | nil =>
      rw [List.nil_append, dictGet_cons_pos _ _ _ rfl]
    | cons kv d ih =>
      simp only [List.any_cons, decide_eq_true_eq, Bool.or_eq_true, not_or] at h
      rw [List.cons_append, dictGet_cons_neg _ _ _ h.1]
      exact ih (by simpa using h.2)

theorem dictGet_dictSet_ne (d : List (String × JValue)) (k' k : String) (v : JValue)
    (h : k' ≠ k) : dictGet (dictSet d k' v) k = dictGet d k := by
  unfold dictSet
  by_cases ha : d.any (fun kv => kv.1 = k')
  · rw [if_pos ha]
    exact dictGet_map_replace d k' k v h
  · rw [if_neg ha]
    exact dictGet_append_singleton_ne d k' k v h

theorem dictGet_dictUpdate_not_mem (d u : List (String × JValue)) (k : String)
    (h : ∀ kv ∈ u, kv.1 ≠ k) : dictGet (dictUpdate d u) k = dictGet d k := by
  induction u generalizing d with
  | nil => rfl
  | cons kv u ih =>
    have h1 : kv.1 ≠ k := h kv (List.mem_cons_self kv u)
    have h2 : ∀ kv' ∈ u, kv'.1 ≠ k := fun kv' hm => h kv' (List.mem_cons_of_mem kv hm)
    calc dictGet (dictUpdate (dictSet d kv.1 kv.2) u) k
        = dictGet (dictSet d kv.1 kv.2) k := ih (dictSet d kv.1 kv.2) h2
      _ = dictGet d k := dictGet_dictSet_ne d kv.1 k kv.2 h1

/-- C5: for every operator name given to Filter construction, if the name
is one of the eight recognized friendly names then construction succeeds
and the serialized operator field equals its fixed API token per
`OPERATOR_MAP`; for any other name construction fails with the
invalid-operator `ValueError`. -/
theorem C5_operator_tokens (p : String) (v : JValue) :
    (∀ op tok, (op, tok) ∈ OPERATOR_MAP →
      ∃ f, Filter.create p op v = .ok f ∧
        f.to_dict.get "operator" = some (.str tok)) ∧
    (∀ op, op ∉ VALID_OPERATORS →
      Filter.create p op v = .error (.invalidOperator op)) := by
  constructor
  · suffices h : ∀ kv ∈ OPERATOR_MAP,
        ∃ f, Filter.create p kv.1 v = .ok f ∧
          f.to_dict.get "operator" = some (.str kv.2) by
      intro op tok hmem
      exact h (op, tok) hmem
    intro kv hkv
    fin_cases hkv <;> exact ⟨_, rfl, rfl⟩
  · intro op hop
    unfold Filter.create
    rw [if_neg hop]

/-- Witness for C5 at the operator names "equals" (recognized, token "=")
and "in" (unrecognized). -/
theorem C5_operator_tokens_witness :
    (∃ f, Filter.create "name" "equals" (.str "x") = .ok f ∧
      f.to_dict.get "operator" = some (.str "=")) ∧
    Filter.create "name" "in" (.str "x") = .error (.invalidOperator "in") :=
  ⟨(C5_operator_tokens "name" (.str "x")).1 "equals" "=" (by decide),
   (C5_operator_tokens "name" (.str "x")).2 "in" (by decide)⟩

/-- C6: `to_params` on a builder with zero filters is the empty parameter
dict; with at least one filter it is exactly the `operator` key (the AND/OR
operator of the builder) and the `filter` key holding the serialized
filter strings in the order the filters sit in the builder; and `add`
appends the new filter at the end, so that order is insertion order. -/
theorem C6_to_params (fb : FilterBuilder) :
    (fb.filters = [] → fb.to_params = []) ∧
    (fb.filters ≠ [] →
      fb.to_params = [("operator", .str fb.operator),
        ("filter", .arr (fb.filters.map (fun f => .str f.toStr)))]) ∧
    (∀ p op v fb', fb.add p op v = .ok fb' →
      ∃ f, Filter.create p op v = .ok f ∧
        fb'.operator = fb.operator ∧ fb'.filters = fb.filters ++ [f]) := by
  refine ⟨fun h => ?_, fun h => ?_, fun p op v fb' h => ?_⟩
  · simp [FilterBuilder.to_params, h]
  · rw [FilterBuilder.to_params, if_neg (by simpa using h)]
  · unfold FilterBuilder.add at h
    cases hc : Filter.create p op v with
    | ok f =>
      rw [hc] at h
      cases h
      exact ⟨f, rfl, rfl, rfl⟩
    | error e =>
      rw [hc] at h
      cases h

/-- Witness for C6: the empty AND builder yields no parameters; a one-filter
OR builder yields the two keys; adding to the empty builder appends. -/
theorem C6_to_params_witness :
    (FilterBuilder.mk "AND" []).to_params = [] ∧
    (FilterBuilder.mk "OR" [demoFilter]).to_params =
      [("operator", .str "OR"), ("filter", .arr [.str demoFilter.toStr])] ∧
    (∃ f, Filter.create "name" "contains" (.str "Arista") = .ok f ∧
      (FilterBuilder.mk "AND" []).operator = "AND" ∧ [f] = [] ++ [f]) := by
  refine ⟨(C6_to_params ⟨"AND", []⟩).1 rfl,
    (C6_to_params ⟨"OR", [demoFilter]⟩).2.1 (by simp),
    ?_⟩
  obtain ⟨f, hf, hop, hfs⟩ :=
    (C6_to_params ⟨"AND", []⟩).2.2 "name" "contains" (.str "Arista") ⟨"AND", [demoFilter]⟩ rfl
  exact ⟨f, hf, hop, by simp [hfs]⟩

/-- C7: the constructed value list of a filter wraps a scalar
(non-sequence) value in a one-element list and keeps a list value
unchanged. -/
theorem C7_value_normalization (p op : String) :
    (∀ v f, (∀ xs, v ≠ .arr xs) → Filter.create p op v = .ok f → f.value = [v]) ∧
    (∀ xs f, Filter.create p op (.arr xs) = .ok f → f.value = xs) := by
  constructor
  · intro v f hv h
    unfold Filter.create at h
    split at h
    · cases h
      cases v with
      | arr ys => exact absurd rfl (hv ys)
      | null => rfl
      | bool b => rfl
      | int n => rfl
      | str s => rfl
      | obj kvs => rfl
    · cases h
  · intro xs f h
    unfold Filter.create at h
    split at h
    · cases h
      rfl
    · cases h

/-- Witness for C7 at the scalar `True` and the list `["AP-555", "AP-635"]`. -/
theorem C7_value_normalization_witness :
    (Filter.mk "active" "equals" [.bool true]).value = [.bool true] ∧
    (Filter.mk "model" "contains" [.str "AP-555", .str "AP-635"]).value =
      [.str "AP-555", .str "AP-635"] :=
  ⟨(C7_value_normalization "active" "equals").1 (.bool true) ⟨"active", "equals", [.bool true]⟩
      (fun _ h => JValue.noConfusion h) rfl,
   (C7_value_normalization "model" "contains").2 [.str "AP-555", .str "AP-635"]
      ⟨"model", "contains", [.str "AP-555", .str "AP-635"]⟩ rfl⟩

/-- C2: `is_session_active` returns false with no network request when the
`JSESSIONID` cookie is absent; when the cookie is present it issues exactly
one GET probe to the session status endpoint and returns true if and only
if the response status is exactly 200, returning false on any other status
and on a transport exception. -/
theorem C2_is_session_active (base_url : String) (cookies : List (String × String))
    (probe : ProbeResult) :
    (hasJSessionId cookies = false →
      is_session_active base_url cookies probe = (false, [])) ∧
    (hasJSessionId cookies = true →
      (is_session_active base_url cookies probe).2 = [base_url ++ "/session"] ∧
      ((is_session_active base_url cookies probe).1 = true ↔ probe = .resp 200)) := by
  constructor
  · intro h
    simp [is_session_active, h]
  · intro h
    cases probe with
    | resp status =>
      by_cases hs : status = 200 <;>
        simp [is_session_active, h, hs]
    | transportExc =>
      simp [is_session_active, h]

/-- Witness for C2: no cookie means false with zero probes; with a cookie,
a 200 probe yields true, a 401 probe and a transport failure yield false,
each with exactly one probe issued. -/
theorem C2_is_session_active_witness :
    is_session_active "https://h/api" [] (.resp 200) = (false, []) ∧
    (is_session_active "https://h/api" [("JSESSIONID", "s")] (.resp 200)).1 = true ∧
    (is_session_active "https://h/api" [("JSESSIONID", "s")] (.resp 401)).1 = false ∧
    (is_session_active "https://h/api" [("JSESSIONID", "s")] .transportExc).1 = false ∧
    (is_session_active "https://h/api" [("JSESSIONID", "s")] (.resp 401)).2 =
      ["https://h/api/session"] := by
  refine ⟨(C2_is_session_active "https://h/api" [] (.resp 200)).1 rfl,
    ((C2_is_session_active "https://h/api" [("JSESSIONID", "s")] (.resp 200)).2 rfl).2.mpr rfl,
    ?_, ?_,
    ((C2_is_session_active "https://h/api" [("JSESSIONID", "s")] (.resp 401)).2 rfl).1⟩
  · have h := ((C2_is_session_active "https://h/api" [("JSESSIONID", "s")] (.resp 401)).2 rfl).2
    revert h
    decide
  · have h := ((C2_is_session_active "https://h/api" [("JSESSIONID", "s")] .transportExc).2 rfl).2
    revert h
    decide

/-- C3: loading the persisted session at construction fails softly — an
absent file yields the empty cookie set, an unparseable file is deleted
and yields the empty cookie set, and (the functions being total) no error
reaches the caller in either case. -/
theorem C3_load_session (parse : List Nat → Option (List (String × String)))
    (bytes : List Nat) :
    load_session parse none = ([], none) ∧
    (parse bytes = none → load_session parse (some bytes) = ([], none)) := by
  refine ⟨rfl, fun h => ?_⟩
  simp [load_session, h]

/-- Witness for C3 with a parser that rejects everything and the one-byte
file `[0]`. -/
theorem C3_load_session_witness :
    load_session (fun _ => none) none = ([], none) ∧
    load_session (fun _ => none) (some [0]) = ([], none) :=
  ⟨(C3_load_session (fun _ => none) [0]).1,
   (C3_load_session (fun _ => none) [0]).2 rfl⟩

/-- C8: evaluation of the constructor at each single missing field. With
only the key id, key value or client id missing, construction fails with
the configuration `ValueError` for that field; with only the base URL
missing it still fails before a client exists, but with the
`AttributeError` from calling `rstrip` on `None` instead of the
configuration error the specification promises. -/
theorem C8_client_init_missing_fields :
    client_init none (some "v") (some "c") (some "https://x") ⟨none, none, none, none⟩ =
      .error (.configurationError "key_id") ∧
    client_init (some "i") none (some "c") (some "https://x") ⟨none, none, none, none⟩ =
      .error (.configurationError "key_value") ∧
    client_init (some "i") (some "v") none (some "https://x") ⟨none, none, none, none⟩ =
      .error (.configurationError "client_id") ∧
    client_init (some "i") (some "v") (some "c") none ⟨none, none, none, none⟩ =
      .error .attributeError :=
  ⟨rfl, rfl, rfl, rfl⟩

/-- C9 counterexample: a request with no body but a caller-supplied header
dict (exactly what `list_aps` does with its `Version: 19` header) is
issued without any `Content-Type` header. -/
theorem C9_counterexample_version_header :
    demoVersionRequest.json = none ∧
    demoVersionRequest.header "Content-Type" = none := by
  constructor <;> rfl

/-- C9 (amended): when no request body is present and the caller supplied
no `headers` keyword argument, the issued request carries the header
`Content-Type: application/json`. -/
theorem C9_content_type_header (method path : String) (kw : Kwargs)
    (hh : kw.headers = none) (hj : pyTruthyOpt kw.json = false) :
    (request_issued method path kw).header "Content-Type" = some "application/json" := by
  unfold request_issued
  rw [if_pos]
  · rfl
  · exact ⟨by simp [hh], hj⟩

/-- Witness for C9 at a bare GET with neither body nor headers. -/
theorem C9_content_type_header_witness :
    (request_issued "GET" "/test" ⟨none, none, none⟩).header "Content-Type" =
      some "application/json" :=
  C9_content_type_header "GET" "/test" ⟨none, none, none⟩ rfl rfl

/-- C4 counterexample: a final status of 300 is not 2xx, yet
`raise_for_status` does not fire on it, so with a parseable body the login
returns normally and the session file is written — against the claim that
any non-2xx status propagates an error and skips the write. -/
theorem C4_counterexample_status_300 :
    is2xx 300 = false ∧
    login net300 "k" "v" "c" = (.ok (.obj []), true) :=
  ⟨rfl, rfl⟩

/-- C4 (amended): `login` posts the fixed-shape credential body
`{type, keyId, keyValue, clientIdentifier, timeout: 300}` to the session
endpoint; the session file is written exactly when the request returns
normally: a transport error, a status in 400..599, or an unparseable body
propagates as an error with no write, while any other status with a
parseable body (including 3xx) returns the body and writes the file. -/
theorem C4_login (net : Net) (kid kv cid : String) :
    (login_issued kid kv cid).method = "POST" ∧
    (login_issued kid kv cid).path = "/session" ∧
    (login_issued kid kv cid).json = some (.obj
      [("type", .str "apiKeyCredentials"),
       ("keyId", .str kid),
       ("keyValue", .str kv),
       ("clientIdentifier", .str cid),
       ("timeout", .int 300)]) ∧
    (net (login_issued kid kv cid) = .error () →
      login net kid kv cid = (.error .transport, false)) ∧
    (∀ r, net (login_issued kid kv cid) = .ok r → 400 ≤ r.status → r.status < 600 →
      login net kid kv cid = (.error (.httpStatus r.status), false)) ∧
    (∀ r, net (login_issued kid kv cid) = .ok r → ¬(400 ≤ r.status ∧ r.status < 600) →
      r.jsonBody = none → login net kid kv cid = (.error .jsonDecode, false)) ∧
    (∀ r j, net (login_issued kid kv cid) = .ok r → ¬(400 ≤ r.status ∧ r.status < 600) →
      r.jsonBody = some j → login net kid kv cid = (.ok j, true)) := by
  unfold login_issued
  refine ⟨rfl, rfl, rfl, fun h => ?_, fun r h h4 h6 => ?_, fun r h hs hb => ?_,
    fun r j h hs hb => ?_⟩
  · unfold login request
    rw [h]
  · have hreq : request net "POST" "/session"
        ⟨none, some (login_body kid kv cid), none⟩ = .error (.httpStatus r.status) := by
      unfold request
      rw [h]
      exact if_pos ⟨h4, h6⟩
    unfold login
    rw [hreq]
  · have hreq : request net "POST" "/session"
        ⟨none, some (login_body kid kv cid), none⟩ = .error .jsonDecode := by
      unfold request
      rw [h]
      show (if 400 ≤ r.status ∧ r.status < 600 then Except.error (ReqError.httpStatus r.status)
        else match r.jsonBody with
          | some j => Except.ok j
          | none => Except.error ReqError.jsonDecode) = Except.error ReqError.jsonDecode
      rw [if_neg hs, hb]
    unfold login
    rw [hreq]
  · have hreq : request net "POST" "/session"
        ⟨none, some (login_body kid kv cid), none⟩ = .ok j := by
      unfold request
      rw [h]
      show (if 400 ≤ r.status ∧ r.status < 600 then Except.error (ReqError.httpStatus r.status)
        else match r.jsonBody with
          | some j => Except.ok j
          | none => Except.error ReqError.jsonDecode) = Except.ok j
      rw [if_neg hs, hb]
    unfold login
    rw [hreq]

/-- Witness for C4: under an all-200 transport the login succeeds and the
session file is written; under a dead transport the transport error
propagates and the file is not written. -/
theorem C4_login_witness :
    login netOk200 "a" "b" "c" = (.ok (.obj []), true) ∧
    login netDown "a" "b" "c" = (.error .transport, false) :=
  ⟨(C4_login netOk200 "a" "b" "c").2.2.2.2.2.2 ⟨200, some (.obj [])⟩ (.obj []) rfl
      (by decide) rfl,
   (C4_login netDown "a" "b" "c").2.2.2.1 rfl⟩

/-- C10 counterexample: a `list_aps` call with a non-empty `FilterBuilder`
whose operator is AND, but an extra keyword argument binding `operator`
to OR, sends OR — the extra parameters are merged after the filter
handling, so the operator sent is not determined by the `filters`
argument alone. -/
theorem C10_counterexample_kwargs_override :
    dictGet (list_aps_params 0 10 false none "boxid" true true false false
        (.builder demoBuilder) "AND" [("operator", .str "OR")]) "operator" =
      some (.str "OR") ∧
    demoBuilder.operator = "AND" :=
  ⟨rfl, rfl⟩

/-- C10 (amended): in a `list_aps` call with a non-empty `filters` argument
whose extra keyword arguments do not themselves bind `operator`, the
logical operator sent is determined by the form of `filters`: the
operator of the builder when it is a `FilterBuilder` (`filter_operator`
has no effect), and the `filter_operator` argument when it is a plain
list of filters. -/
theorem C10_list_aps_operator (startindex pagesize : Nat) (tcr : Bool)
    (locationid : Option Int) (sortby : String) (asc fr pmi pwi : Bool)
    (filter_operator : String) (kwargs : List (String × JValue))
    (hk : ∀ kv ∈ kwargs, kv.1 ≠ "operator") :
    (∀ fb : FilterBuilder, fb.filters ≠ [] →
      dictGet (list_aps_params startindex pagesize tcr locationid sortby asc fr pmi pwi
        (.builder fb) filter_operator kwargs) "operator" = some (.str fb.operator)) ∧
    (∀ fs : List Filter, fs ≠ [] →
      dictGet (list_aps_params startindex pagesize tcr locationid sortby asc fr pmi pwi
        (.list fs) filter_operator kwargs) "operator" = some (.str filter_operator)) := by
  constructor
  · intro fb hfb
    unfold list_aps_params
    dsimp only
    rw [dictGet_dictUpdate_not_mem _ _ _ hk]
    have hto : fb.to_params = [("operator", .str fb.operator),
        ("filter", .arr (fb.filters.map (fun f => .str f.toStr)))] := by
      unfold FilterBuilder.to_params
      rw [if_neg (by simpa using hfb)]
    rw [hto]
    unfold dictUpdate
    simp only [List.foldl_cons, List.foldl_nil]
    rw [dictGet_dictSet_ne _ _ _ _ (by decide), dictGet_dictSet_self]
  · intro fs hfs
    unfold list_aps_params
    rw [dictGet_dictUpdate_not_mem _ _ _ hk]
    rw [dictGet_dictSet_self]

/-- Witness for C10: with no extra keyword arguments, the one-filter AND
builder sends AND even when `filter_operator` is OR, and a plain filter
list sends the `filter_operator` argument. -/
theorem C10_list_aps_operator_witness :
    dictGet (list_aps_params 0 10 false none "boxid" true true false false
        (.builder demoBuilder) "OR" []) "operator" = some (.str "AND") ∧
    dictGet (list_aps_params 0 10 false none "boxid" true true false false
        (.list [demoFilter]) "OR" []) "operator" = some (.str "OR") :=
  ⟨(C10_list_aps_operator 0 10 false none "boxid" true true false false "OR" []
      (fun kv h => absurd h (List.not_mem_nil kv))).1 demoBuilder (by simp [demoBuilder]),
   (C10_list_aps_operator 0 10 false none "boxid" true true false false "OR" []
      (fun kv h => absurd h (List.not_mem_nil kv))).2 [demoFilter] (by simp)⟩
/-- Unrolling of the pagination loop: starting anywhere, if the pages at
start indexes `s0, s0+p, ...` are full (length at least `p`) for `k`
steps and the page after them is short (length below `p`, zero included),
the loop requests exactly those `k+1` start indexes in order and returns
the accumulated concatenation of the fetched pages. -/
theorem get_all_aps_go_spec (server : Nat → Option (List JValue)) (p : Nat) (hp : 0 < p) :
    ∀ (k s0 : Nat) (acc : List JValue) (reqs : List Nat) (fuel : Nat),
      k < fuel →
      (∀ i, i < k → p ≤ ((server (s0 + i * p)).getD []).length) →
      ((server (s0 + k * p)).getD []).length < p →
      get_all_aps_go server p fuel s0 acc reqs =
        some (acc ++ (List.range (k + 1)).flatMap (fun i => (server (s0 + i * p)).getD []),
              reqs ++ (List.range (k + 1)).map (fun i => s0 + i * p)) := by
  intro k
  induction k with
  | zero =>
    intro s0 acc reqs fuel hfuel hfull hlast
    cases fuel with
    | zero => omega
    | succ fuel =>
      simp only [Nat.zero_mul, Nat.add_zero] at hlast
      rw [get_all_aps_go]
      by_cases hdev : ((server s0).getD []).isEmpty
      · rw [if_pos hdev]
        have hnil : (server s0).getD [] = [] := by
          simpa [List.isEmpty_iff] using hdev
        simp [hnil, List.range_succ]
      · rw [if_neg hdev, if_pos hlast]
        simp [List.range_succ]
  | succ k ih =>
    intro s0 acc reqs fuel hfuel hfull hlast
    cases fuel with
    | zero => omega
    | succ fuel =>
      have h0 : p ≤ ((server s0).getD []).length := by
        simpa using hfull 0 (Nat.succ_pos k)
      have hne : ¬((server s0).getD []).isEmpty := by
        rw [List.isEmpty_iff]
        intro hnil
        rw [hnil] at h0
        simp at h0
        omega
      rw [get_all_aps_go, if_neg hne, if_neg (Nat.not_lt.mpr h0)]
      have hfull2 : ∀ i, i < k → p ≤ ((server (s0 + p + i * p)).getD []).length := by
        intro i hi
        have h := hfull (i + 1) (by omega)
        rwa [show s0 + (i + 1) * p = s0 + p + i * p by ring] at h
      have hlast2 : ((server (s0 + p + k * p)).getD []).length < p := by
        rwa [show s0 + (k + 1) * p = s0 + p + k * p by ring] at hlast
      rw [ih (s0 + p) (acc ++ (server s0).getD []) (reqs ++ [s0]) fuel (by omega) hfull2 hlast2]
      have hC : (List.range (k + 1 + 1)).flatMap (fun i => (server (s0 + i * p)).getD []) =
          (server s0).getD [] ++
            (List.range (k + 1)).flatMap (fun i => (server (s0 + p + i * p)).getD []) := by
        rw [List.range_succ_eq_map, List.flatMap_cons, List.flatMap_map]
        congr 1
        · simp
        · congr 1
          funext i
          congr 2
          rw [Nat.succ_eq_add_one]
          ring
      have hD : (List.range (k + 1 + 1)).map (fun i => s0 + i * p) =
          s0 :: (List.range (k + 1)).map (fun i => s0 + p + i * p) := by
        rw [List.range_succ_eq_map, List.map_cons, List.map_map]
        congr 1
        · simp
        · congr 1
          funext i
          simp only [Function.comp_apply]
          rw [Nat.succ_eq_add_one]
          ring
      rw [hC, hD]
      simp [List.append_assoc]

/-- C1: over any server whose first short page (fewer than `pagesize`
items, zero included) is page `k`, `get_all_aps` issues the `list_aps`
requests with start indexes `0, pagesize, 2*pagesize, ...` in that order,
stopping right after that first short page, and returns the concatenation
of all fetched pages in fetch order. -/
theorem C1_get_all_aps (server : Nat → Option (List JValue)) (p k fuel : Nat)
    (hp : 0 < p) (hfuel : k < fuel)
    (hfull : ∀ i, i < k → p ≤ ((server (i * p)).getD []).length)
    (hlast : ((server (k * p)).getD []).length < p) :
    get_all_aps server p fuel =
      some ((List.range (k + 1)).flatMap (fun i => (server (i * p)).getD []),
            (List.range (k + 1)).map (fun i => i * p)) := by
  have h := get_all_aps_go_spec server p hp k 0 [] [] fuel hfuel
    (by simpa using hfull) (by simpa using hlast)
  simpa [get_all_aps] using h

/-- Witness for C1 on the specification scenario: pages of sizes
100, 100, 50 with pagesize 100 produce exactly three requests with start
indexes 0, 100, 200, and 250 items in original order. -/
theorem C1_get_all_aps_witness :
    get_all_aps server3 100 3 =
      some ((List.range 3).flatMap (fun i => (server3 (i * 100)).getD []),
            (List.range 3).map (fun i => i * 100)) ∧
    ((List.range 3).flatMap (fun i => (server3 (i * 100)).getD [])).length = 250 ∧
    (List.range 3).map (fun i => i * 100) = [0, 100, 200] ∧
    (List.range 3).flatMap (fun i => (server3 (i * 100)).getD []) =
      (List.range 250).map (fun i => .int i) :=
  ⟨C1_get_all_aps server3 100 2 3 (by decide) (by decide) (by decide) (by decide),
   by rfl, by rfl, by rfl⟩

end CvCue
